import Mathlib

/-!
Verification of the event-management core (versioned record store, permission
resolver, conflict detector) against its design specification.

The embedding follows the Python sources:
  app/schemas/event.py   (SQLAlchemy models Event, EventPermission, EventVersion)
  app/schemas/user.py    (UserRole)
  app/models/event.py    (pydantic EventCreate / EventUpdate and their validators)
  app/services/event.py  (EventService)
  app/utils/rbac.py      (RoleChecker)
  app/api/v1/endpoints/events.py (get_event_diff endpoint)

Modelling conventions:
  - datetimes are integer timestamps; datetime.isoformat is injective, so a
    snapshot stores the timestamp itself where Python stores the ISO string
    (string equality coincides with timestamp equality, and the ISO string of
    a stored non-null datetime is always truthy, which the rollback guards use);
  - a JSON recurrence-rule dict is an opaque String payload; the empty String
    plays the role of the falsy empty dict;
  - JSON snapshot dicts are association lists with the literal keys written in
    app/services/event.py (create_event_version); Python dict.get with a None
    default is pyGet below;
  - pydantic optional request fields are Option values; in pydantic an explicit
    null and an omitted field both surface as Python None, which is Option.none.
-/

namespace EventMgmt

/-- Recurrence patterns of events, from RecurrencePattern in app/schemas/event.py.
The member NONE of the Python enum is nonePat here. -/
inductive RecurrencePattern where
  | nonePat
  | daily
  | weekly
  | monthly
  | yearly
  | custom
  deriving DecidableEq

/-- String value of each enum member, as in app/schemas/event.py. -/
def RecurrencePattern.value : RecurrencePattern → String
  | nonePat => "none"
  | daily => "daily"
  | weekly => "weekly"
  | monthly => "monthly"
  | yearly => "yearly"
  | custom => "custom"

/-- Inverse of RecurrencePattern.value: the enum constructor call
RecurrencePattern(s) in Python, which raises on an unknown string (none here;
never reached on snapshot data produced by this service). -/
def patternFromValue : String → Option RecurrencePattern :=
  fun s =>
    if s = "none" then some RecurrencePattern.nonePat
    else if s = "daily" then some RecurrencePattern.daily
    else if s = "weekly" then some RecurrencePattern.weekly
    else if s = "monthly" then some RecurrencePattern.monthly
    else if s = "yearly" then some RecurrencePattern.yearly
    else if s = "custom" then some RecurrencePattern.custom
    else none

/-- User roles, from UserRole in app/schemas/user.py. -/
inductive UserRole where
  | owner
  | editor
  | viewer
  deriving DecidableEq

/-- JSON scalar values stored in an EventVersion snapshot dict. -/
inductive Value where
  | vnull
  | vint (i : Int)
  | vstr (s : String)
  | vbool (b : Bool)
  deriving DecidableEq

/-- Python truthiness of a snapshot value (used by the rollback guards). -/
def Value.truthy : Value → Bool
  | vnull => false
  | vint i => i != 0
  | vstr s => s != ""
  | vbool b => b

/-- The events table row, from Event in app/schemas/event.py. -/
structure Event where
  id : Int
  title : String
  description : Option String
  start_time : Int
  end_time : Int
  location : Option String
  is_recurring : Bool
  recurrence_pattern : Option RecurrencePattern
  recurrence_rule : Option String
  owner_id : Int
  created_at : Int
  updated_at : Option Int
  version : Nat
  deriving DecidableEq

/-- The event_permissions table row, from EventPermission in app/schemas/event.py. -/
structure EventPermission where
  event_id : Int
  user_id : Int
  role : UserRole
  deriving DecidableEq

/-- The event_versions table row, from EventVersion in app/schemas/event.py. -/
structure EventVersion where
  event_id : Int
  version : Nat
  data : List (String × Value)
  changed_by_id : Int
  change_description : Option String
  deriving DecidableEq

/-- Creation payload, from EventCreate in app/models/event.py. -/
structure EventCreate where
  title : String
  description : Option String
  start_time : Int
  end_time : Int
  location : Option String
  is_recurring : Bool
  recurrence_pattern : Option RecurrencePattern
  recurrence_rule : Option String
  deriving DecidableEq

/-- Partial-update payload, from EventUpdate in app/models/event.py; a field
that is none was omitted from the request (or sent as an explicit null, which
pydantic does not distinguish from omission). -/
structure EventUpdate where
  title : Option String
  description : Option String
  start_time : Option Int
  end_time : Option Int
  location : Option String
  is_recurring : Option Bool
  recurrence_pattern : Option RecurrencePattern
  recurrence_rule : Option String
  deriving DecidableEq

/-- Snapshot encoding of an optional string column. -/
def optStrValue : Option String → Value
  | none => Value.vnull
  | some s => Value.vstr s

/-- Snapshot encoding of an optional integer (timestamp) column. -/
def optIntValue : Option Int → Value
  | none => Value.vnull
  | some i => Value.vint i

/-- Snapshot encoding of the optional recurrence-pattern column:
event.recurrence_pattern.value if event.recurrence_pattern else None. -/
def patValue : Option RecurrencePattern → Value
  | none => Value.vnull
  | some p => Value.vstr p.value

/-- The JSON snapshot dict built by EventService.create_event_version
(app/services/event.py, the event_data literal). -/
def eventData (event : Event) : List (String × Value) :=
  [ ("id", Value.vint event.id),
    ("title", Value.vstr event.title),
    ("description", optStrValue event.description),
    ("start_time", Value.vint event.start_time),
    ("end_time", Value.vint event.end_time),
    ("location", optStrValue event.location),
    ("is_recurring", Value.vbool event.is_recurring),
    ("recurrence_pattern", patValue event.recurrence_pattern),
    ("recurrence_rule", optStrValue event.recurrence_rule),
    ("owner_id", Value.vint event.owner_id),
    ("version", Value.vint (event.version : Int)),
    ("created_at", Value.vint event.created_at),
    ("updated_at", optIntValue event.updated_at) ]

/-- Python dict.get(key) with default None on a snapshot dict. -/
def pyGet (data : List (String × Value)) (key : String) : Value :=
  match data.lookup key with
  | some v => v
  | none => Value.vnull

/-- EventService.create_event_version: records the current state of the event
under its current version number. -/
def create_event_version (event : Event) (user_id : Int)
    (change_description : Option String) : EventVersion :=
  { event_id := event.id
    version := event.version
    data := eventData event
    changed_by_id := user_id
    change_description := change_description }

/-- The persistent state of one event: the live row plus its stored snapshots
in insertion order. -/
structure EventState where
  event : Event
  versions : List EventVersion
  deriving DecidableEq

/-- EventService.create_event: persists a new event (version defaults to 1)
and writes the initial snapshot. The database-assigned id and the creation
timestamp are explicit arguments. -/
def create_event (event_in : EventCreate) (owner_id : Int) (eid now : Int) :
    EventState :=
  let event : Event :=
    { id := eid
      title := event_in.title
      description := event_in.description
      start_time := event_in.start_time
      end_time := event_in.end_time
      location := event_in.location
      is_recurring := event_in.is_recurring
      recurrence_pattern := event_in.recurrence_pattern
      recurrence_rule := event_in.recurrence_rule
      owner_id := owner_id
      created_at := now
      updated_at := none
      version := 1 }
  { event := event
    versions := [create_event_version event owner_id (some "Initial creation")] }

/-- A single-quote character for the change-note strings of update_event. -/
def sq : String := "\x27"

/-- Python str of a bool, for the change-note strings. -/
def pyBoolStr (b : Bool) : String := if b then "True" else "False"

/-- Python str of the optional recurrence-pattern column, for the change-note
strings. -/
def patPyStr : Option RecurrencePattern → String
  | none => "None"
  | some RecurrencePattern.nonePat => "RecurrencePattern.NONE"
  | some RecurrencePattern.daily => "RecurrencePattern.DAILY"
  | some RecurrencePattern.weekly => "RecurrencePattern.WEEKLY"
  | some RecurrencePattern.monthly => "RecurrencePattern.MONTHLY"
  | some RecurrencePattern.yearly => "RecurrencePattern.YEARLY"
  | some RecurrencePattern.custom => "RecurrencePattern.CUSTOM"

/-- The title branch of EventService.update_event: assign and record a change
note when the patch carries the field and its value differs. -/
def applyTitle (acc : List String × Event) (event_in : EventUpdate) :
    List String × Event :=
  match event_in.title with
  | some t =>
      if t ≠ acc.2.title then
        (acc.1 ++ ["Title changed from " ++ sq ++ acc.2.title ++ sq ++ " to "
           ++ sq ++ t ++ sq],
         { acc.2 with title := t })
      else acc
  | none => acc

/-- The description branch of EventService.update_event. -/
def applyDescription (acc : List String × Event) (event_in : EventUpdate) :
    List String × Event :=
  match event_in.description with
  | some d =>
      if some d ≠ acc.2.description then
        (acc.1 ++ ["Description updated"], { acc.2 with description := some d })
      else acc
  | none => acc

/-- The start_time branch of EventService.update_event. -/
def applyStartTime (acc : List String × Event) (event_in : EventUpdate) :
    List String × Event :=
  match event_in.start_time with
  | some s =>
      if s ≠ acc.2.start_time then
        (acc.1 ++ ["Start time changed from " ++ sq ++ toString acc.2.start_time
           ++ sq ++ " to " ++ sq ++ toString s ++ sq],
         { acc.2 with start_time := s })
      else acc
  | none => acc

/-- The end_time branch of EventService.update_event. -/
def applyEndTime (acc : List String × Event) (event_in : EventUpdate) :
    List String × Event :=
  match event_in.end_time with
  | some e =>
      if e ≠ acc.2.end_time then
        (acc.1 ++ ["End time changed from " ++ sq ++ toString acc.2.end_time
           ++ sq ++ " to " ++ sq ++ toString e ++ sq],
         { acc.2 with end_time := e })
      else acc
  | none => acc

/-- The location branch of EventService.update_event. -/
def applyLocation (acc : List String × Event) (event_in : EventUpdate) :
    List String × Event :=
  match event_in.location with
  | some l =>
      if some l ≠ acc.2.location then
        (acc.1 ++ ["Location changed from " ++ sq
           ++ (acc.2.location).getD "None" ++ sq ++ " to " ++ sq ++ l ++ sq],
         { acc.2 with location := some l })
      else acc
  | none => acc

/-- The is_recurring branch of EventService.update_event. -/
def applyIsRecurring (acc : List String × Event) (event_in : EventUpdate) :
    List String × Event :=
  match event_in.is_recurring with
  | some r =>
      if r ≠ acc.2.is_recurring then
        (acc.1 ++ ["Recurring status changed from " ++ sq
           ++ pyBoolStr acc.2.is_recurring ++ sq ++ " to " ++ sq
           ++ pyBoolStr r ++ sq],
         { acc.2 with is_recurring := r })
      else acc
  | none => acc

/-- The recurrence_pattern branch of EventService.update_event. -/
def applyRecPattern (acc : List String × Event) (event_in : EventUpdate) :
    List String × Event :=
  match event_in.recurrence_pattern with
  | some p =>
      if some p ≠ acc.2.recurrence_pattern then
        (acc.1 ++ ["Recurrence pattern changed from " ++ sq
           ++ patPyStr acc.2.recurrence_pattern ++ sq ++ " to " ++ sq
           ++ patPyStr (some p) ++ sq],
         { acc.2 with recurrence_pattern := some p })
      else acc
  | none => acc

/-- The recurrence_rule branch of EventService.update_event. -/
def applyRecRule (acc : List String × Event) (event_in : EventUpdate) :
    List String × Event :=
  match event_in.recurrence_rule with
  | some r =>
      if some r ≠ acc.2.recurrence_rule then
        (acc.1 ++ ["Recurrence rule updated"],
         { acc.2 with recurrence_rule := some r })
      else acc
  | none => acc

/-- EventService.update_event: applies the per-field branches in source order,
increments version, then writes one snapshot whose description joins the change
notes (or the fixed no-change message). -/
def update_event (st : EventState) (event_in : EventUpdate) (uid now : Int) :
    EventState :=
  let acc :=
    applyRecRule (applyRecPattern (applyIsRecurring (applyLocation (applyEndTime
      (applyStartTime (applyDescription (applyTitle ([], st.event) event_in)
        event_in) event_in) event_in) event_in) event_in) event_in) event_in
  let event2 : Event :=
    { acc.2 with version := acc.2.version + 1, updated_at := some now }
  let change_description : String :=
    if acc.1.isEmpty then "Event updated (no changes detected)"
    else String.intercalate "; " acc.1
  { event := event2
    versions := st.versions ++
      [create_event_version event2 uid (some change_description)] }

/-- EventService.get_event_version: first stored snapshot matching the event id
and the version number. -/
def get_event_version (versions : List EventVersion) (event_id : Int)
    (version : Nat) : Option EventVersion :=
  versions.find? (fun ev => ev.event_id == event_id && ev.version == version)

/-- The title assignment of EventService.rollback_event:
version_data.get with the current value as default. Snapshots produced by
create_event_version always store a string title, so the keep branches cover
the get default and the (unreachable) non-string cases. -/
def rbTitle (event : Event) (vd : List (String × Value)) : Event :=
  match vd.lookup "title" with
  | some (Value.vstr s) => { event with title := s }
  | _ => event

/-- The description assignment of EventService.rollback_event: get with the
current value as default; a stored null becomes none. -/
def rbDescription (event : Event) (vd : List (String × Value)) : Event :=
  match vd.lookup "description" with
  | some Value.vnull => { event with description := none }
  | some (Value.vstr s) => { event with description := some s }
  | _ => event

/-- The start_time assignment of EventService.rollback_event: copied when the
key is present and truthy; a stored non-null datetime is an ISO string, always
truthy, and a stored null is falsy and skipped. -/
def rbStartTime (event : Event) (vd : List (String × Value)) : Event :=
  match vd.lookup "start_time" with
  | some (Value.vint i) => { event with start_time := i }
  | _ => event

/-- The end_time assignment of EventService.rollback_event. -/
def rbEndTime (event : Event) (vd : List (String × Value)) : Event :=
  match vd.lookup "end_time" with
  | some (Value.vint i) => { event with end_time := i }
  | _ => event

/-- The location assignment of EventService.rollback_event. -/
def rbLocation (event : Event) (vd : List (String × Value)) : Event :=
  match vd.lookup "location" with
  | some Value.vnull => { event with location := none }
  | some (Value.vstr s) => { event with location := some s }
  | _ => event

/-- The is_recurring assignment of EventService.rollback_event: get with the
current value as default; snapshots always store a boolean here. -/
def rbIsRecurring (event : Event) (vd : List (String × Value)) : Event :=
  match vd.lookup "is_recurring" with
  | some (Value.vbool b) => { event with is_recurring := b }
  | _ => event

/-- The recurrence_pattern assignment of EventService.rollback_event: copied
only when the key is present and its value truthy (so a stored null pattern is
skipped and the live value kept); the stored string is fed back through the
enum constructor, whose failure case is unreachable on snapshot data. -/
def rbRecPattern (event : Event) (vd : List (String × Value)) : Event :=
  match vd.lookup "recurrence_pattern" with
  | some v =>
      if v.truthy then
        match v with
        | Value.vstr s =>
            match patternFromValue s with
            | some p => { event with recurrence_pattern := some p }
            | none => event
        | _ => event
      else event
  | none => event

/-- The recurrence_rule assignment of EventService.rollback_event: get with
the current value as default. -/
def rbRecRule (event : Event) (vd : List (String × Value)) : Event :=
  match vd.lookup "recurrence_rule" with
  | some Value.vnull => { event with recurrence_rule := none }
  | some (Value.vstr s) => { event with recurrence_rule := some s }
  | _ => event

/-- EventService.rollback_event: loads the target snapshot (none when the
version number does not exist, leaving the state untouched), copies its fields
per the rb helpers in source order, increments version, and writes one new
snapshot describing the rollback. -/
def rollback_event (st : EventState) (version : Nat) (uid now : Int) :
    Option EventState :=
  (get_event_version st.versions st.event.id version).map (fun event_version =>
    let vd := event_version.data
    let e8 :=
      rbRecRule (rbRecPattern (rbIsRecurring (rbLocation (rbEndTime
        (rbStartTime (rbDescription (rbTitle st.event vd) vd) vd) vd) vd) vd)
        vd) vd
    let event2 : Event :=
      { e8 with version := e8.version + 1, updated_at := some now }
    { event := event2
      versions := st.versions ++ [create_event_version event2 uid
        (some ("Rolled back to version " ++ toString version))] })

/-- The visibility filter shared by EventService.get_events and
EventService.detect_conflicts: the user owns the event or holds a permission
row on it. -/
def visibleTo (events : List Event) (perms : List EventPermission)
    (user_id : Int) : List Event :=
  events.filter (fun e =>
    e.owner_id == user_id ||
      perms.any (fun p => p.event_id == e.id && p.user_id == user_id))

/-- EventService.detect_conflicts: among the events visible to the user,
optionally excluding one event id (the Python guard is on truthiness, so an
id of 0 would not be excluded), keep those whose window overlaps the
candidate half-openly. -/
def detect_conflicts (events : List Event) (perms : List EventPermission)
    (event_in : EventCreate) (user_id : Int) (event_id : Option Int) :
    List Event :=
  let base := visibleTo events perms user_id
  let base2 : List Event :=
    match event_id with
    | some i => if i ≠ 0 then base.filter (fun e => e.id ≠ i) else base
    | none => base
  base2.filter (fun e =>
    decide (event_in.start_time < e.end_time) &&
      decide (event_in.end_time > e.start_time))

/-- RoleChecker.is_event_owner. -/
def is_event_owner (user_id : Int) (event : Event) : Bool :=
  event.owner_id == user_id

/-- RoleChecker.get_user_role_for_event: owner when the user is the structural
owner, else the role of the first permission row of the event matching the
user, else none. The perms argument is the permissions relationship of the
event. -/
def get_user_role_for_event (user_id : Int) (event : Event)
    (perms : List EventPermission) : Option UserRole :=
  if is_event_owner user_id event then some UserRole.owner
  else
    match perms.find? (fun p => p.user_id == user_id) with
    | some p => some p.role
    | none => none

/-- RoleChecker.can_view_event: any role can view. -/
def can_view_event (user_id : Int) (event : Event)
    (perms : List EventPermission) : Bool :=
  (get_user_role_for_event user_id event perms).isSome

/-- RoleChecker.can_edit_event: the resolved role is in the list owner,
editor. -/
def can_edit_event (user_id : Int) (event : Event)
    (perms : List EventPermission) : Bool :=
  match get_user_role_for_event user_id event perms with
  | some UserRole.owner => true
  | some UserRole.editor => true
  | _ => false

/-- RoleChecker.can_delete_event: structural ownership only. -/
def can_delete_event (user_id : Int) (event : Event) : Bool :=
  is_event_owner user_id event

/-- RoleChecker.can_manage_permissions: structural ownership only. -/
def can_manage_permissions (user_id : Int) (event : Event) : Bool :=
  is_event_owner user_id event

/-- Python truthiness of the optional recurrence-rule payload: None and the
empty dict are falsy. -/
def ruleTruthy : Option String → Bool
  | none => false
  | some s => s != ""

/-- The creation-time validators of EventBase in app/models/event.py: end
must be strictly after start; a custom pattern requires a truthy rule; any
other pattern (including a null one) forbids a truthy rule. -/
def eventBaseValidationError (start_time end_time : Int)
    (recurrence_pattern : Option RecurrencePattern)
    (recurrence_rule : Option String) : Bool :=
  (end_time ≤ start_time : Bool) ||
    (recurrence_pattern == some RecurrencePattern.custom &&
      !(ruleTruthy recurrence_rule)) ||
    (recurrence_pattern != some RecurrencePattern.custom &&
      ruleTruthy recurrence_rule)

/-- The only validator of EventUpdate in app/models/event.py
(end_time_must_be_after_start_time): it fires exactly when the patch itself
carries both times and end is not after start; EventUpdate has no
recurrence-consistency validator. -/
def eventUpdateEndTimeError (event_in : EventUpdate) : Bool :=
  match event_in.end_time, event_in.start_time with
  | some e, some s => e ≤ s
  | _, _ => false

/-- Modelled from the spec words for claim C5: the merged (old event fields
overwritten by the fields present in the patch) state violates the creation
constraints of EventBase. The code under test never evaluates this. -/
def mergedCreateViolation (event : Event) (event_in : EventUpdate) : Bool :=
  eventBaseValidationError
    (event_in.start_time.getD event.start_time)
    (event_in.end_time.getD event.end_time)
    (match event_in.recurrence_pattern with
     | some p => some p
     | none => event.recurrence_pattern)
    (match event_in.recurrence_rule with
     | some r => some r
     | none => event.recurrence_rule)

/-- Metadata fields skipped by EventService.calculate_diff. -/
def diffMetadataKeys : List String := ["id", "created_at", "updated_at"]

/-- The field loop of EventService.calculate_diff: over the union of the keys
of the two snapshot dicts (Python iterates an unordered set; the result is a
map, so the first-occurrence order used here is immaterial), skip metadata
keys and report the pairs of values that differ; the first component is the
value labelled version1, the second the value labelled version2. -/
def dataDiff (data1 data2 : List (String × Value)) :
    List (String × Value × Value) :=
  ((data1.map Prod.fst ++ data2.map Prod.fst).dedup).filterMap (fun key =>
    if key ∈ diffMetadataKeys then none
    else if pyGet data1 key ≠ pyGet data2 key then
      some (key, pyGet data1 key, pyGet data2 key)
    else none)

/-- EventService.calculate_diff: none when either requested version number
does not exist for the event, else the field-level diff of the two stored
snapshots. -/
def calculate_diff (versions : List EventVersion) (event_id : Int)
    (version1 version2 : Nat) : Option (List (String × Value × Value)) :=
  match get_event_version versions event_id version1,
      get_event_version versions event_id version2 with
  | some ev1, some ev2 => some (dataDiff ev1.data ev2.data)
  | _, _ => none

/-- Outcome of the diff endpoint. -/
inductive DiffResult where
  | notFound
  | ok (version1 version2 : Nat) (diff : List (String × Value × Value))
  deriving DecidableEq

/-- The get_event_diff endpoint of app/api/v1/endpoints/events.py: it raises
404 when the service result is falsy, which in Python covers both None and
the empty dict. -/
def get_event_diff (versions : List EventVersion) (event_id : Int)
    (version_id1 version_id2 : Nat) : DiffResult :=
  match calculate_diff versions event_id version_id1 version_id2 with
  | none => DiffResult.notFound
  | some d =>
      if d.isEmpty then DiffResult.notFound
      else DiffResult.ok version_id1 version_id2 d

/-- The net effect of the per-field branches of update_event on the event row:
each field present in the patch overwrites the old value, each omitted field
is kept. Proved equal to the event produced by update_event below. -/
def applyPatch (event : Event) (event_in : EventUpdate) : Event :=
  { event with
    title := event_in.title.getD event.title
    description :=
      match event_in.description with
      | some d => some d
      | none => event.description
    start_time := event_in.start_time.getD event.start_time
    end_time := event_in.end_time.getD event.end_time
    location :=
      match event_in.location with
      | some l => some l
      | none => event.location
    is_recurring := event_in.is_recurring.getD event.is_recurring
    recurrence_pattern :=
      match event_in.recurrence_pattern with
      | some p => some p
      | none => event.recurrence_pattern
    recurrence_rule :=
      match event_in.recurrence_rule with
      | some r => some r
      | none => event.recurrence_rule }

/-- The net effect of rollback_event on the event row when the target snapshot
was produced by create_event_version from a past event e0: every data field of
e0 is copied back except that a null recurrence_pattern is skipped; identity,
owner, creation timestamp stay, version increments. Proved equal to the event
produced by rollback_event below. -/
def rollbackApply (event e0 : Event) (now : Int) : Event :=
  { event with
    title := e0.title
    description := e0.description
    start_time := e0.start_time
    end_time := e0.end_time
    location := e0.location
    is_recurring := e0.is_recurring
    recurrence_pattern :=
      match e0.recurrence_pattern with
      | some p => some p
      | none => event.recurrence_pattern
    recurrence_rule := e0.recurrence_rule
    version := event.version + 1
    updated_at := some now }

/-- A committed mutation on one event: an update with a patch or a rollback to
a version number (a rollback to a missing version returns None in the service
and leaves the state untouched). -/
inductive EventOp where
  | upd (event_in : EventUpdate) (uid now : Int)
  | rb (version : Nat) (uid now : Int)

/-- Run one operation against the state. -/
def applyOp (st : EventState) (op : EventOp) : EventState :=
  match op with
  | EventOp.upd event_in uid now => update_event st event_in uid now
  | EventOp.rb version uid now =>
      match rollback_event st version uid now with
      | some st2 => st2
      | none => st

/-- Run a sequence of operations against the state. -/
def applyOps (st : EventState) (ops : List EventOp) : EventState :=
  ops.foldl applyOp st

/-- The states of one event reachable through the service: created once, then
mutated by committed updates and rollbacks. -/
inductive Reach : EventState → Prop where
  | create (event_in : EventCreate) (owner_id eid now : Int) :
      Reach (create_event event_in owner_id eid now)
  | update (st : EventState) (event_in : EventUpdate) (uid now : Int) :
      Reach st → Reach (update_event st event_in uid now)
  | rollback (st st2 : EventState) (version : Nat) (uid now : Int) :
      Reach st → rollback_event st version uid now = some st2 → Reach st2

/-- Well-formedness of the stored snapshots: each belongs to this event and
is the snapshot dict of some past event row carrying the same version
number. -/
def SnapWF (st : EventState) : Prop :=
  ∀ ev ∈ st.versions, ev.event_id = st.event.id ∧
    ∃ e0 : Event, ev.data = eventData e0 ∧ e0.version = ev.version

/-- The version-history invariant: the stored snapshot version numbers are
exactly 1, 2, ..., version in insertion order, and the snapshots are
well-formed. -/
def Inv (st : EventState) : Prop :=
  st.versions.map (fun ev => ev.version) = List.range' 1 st.event.version ∧
    SnapWF st

/-- A concrete creation payload used by the concrete instances below. -/
def sampleCreate : EventCreate :=
  { title := "Standup"
    description := none
    start_time := 0
    end_time := 10
    location := none
    is_recurring := false
    recurrence_pattern := some RecurrencePattern.nonePat
    recurrence_rule := none }

/-- The empty patch: every field omitted. -/
def emptyPatch : EventUpdate :=
  { title := none
    description := none
    start_time := none
    end_time := none
    location := none
    is_recurring := none
    recurrence_pattern := none
    recurrence_rule := none }

/-- A patch renaming the event. -/
def titlePatch : EventUpdate := { emptyPatch with title := some "Sync" }

/-- A creation payload with an explicitly null recurrence pattern, which the
creation validators accept. -/
def nullPatternCreate : EventCreate :=
  { sampleCreate with recurrence_pattern := none }

/-- A patch setting the recurrence pattern to daily. -/
def dailyPatch : EventUpdate :=
  { emptyPatch with recurrence_pattern := some RecurrencePattern.daily }

/-- A patch moving only the end time, to before the current start time. -/
def badEndPatch : EventUpdate := { emptyPatch with end_time := some (-5) }

/-- Concrete state: freshly created event, one snapshot. -/
def st1 : EventState := create_event sampleCreate 1 10 0

/-- Concrete state: st1 after a title update, two snapshots. -/
def st2 : EventState := update_event st1 titlePatch 1 5

/-- Concrete state: created with a null recurrence pattern. -/
def stN1 : EventState := create_event nullPatternCreate 1 10 0

/-- Concrete state: stN1 after switching the pattern to daily. -/
def stN2 : EventState := update_event stN1 dailyPatch 1 5

/-- The snapshot description computed by update_event: the joined change
notes, or the fixed message when no field changed. -/
def updateDescription (st : EventState) (event_in : EventUpdate) : String :=
  let acc :=
    applyRecRule (applyRecPattern (applyIsRecurring (applyLocation (applyEndTime
      (applyStartTime (applyDescription (applyTitle ([], st.event) event_in)
        event_in) event_in) event_in) event_in) event_in) event_in) event_in
  if acc.1.isEmpty then "Event updated (no changes detected)"
  else String.intercalate "; " acc.1

/-! Structural lemmas about the per-field update branches: each branch leaves
every other field of the event untouched and gives its own field merge
semantics. -/

theorem applyTitle_event (acc : List String × Event) (p : EventUpdate) :
    (applyTitle acc p).2 = { acc.2 with title := p.title.getD acc.2.title } := by
  unfold applyTitle
  cases ht : p.title with
  | none => rfl
  | some t =>
      by_cases h : t = acc.2.title
      · subst h; simp
      · simp [h]

theorem applyDescription_event (acc : List String × Event) (p : EventUpdate) :
    (applyDescription acc p).2 =
      { acc.2 with description :=
          match p.description with
          | some d => some d
          | none => acc.2.description } := by
  unfold applyDescription
  cases ht : p.description with
  | none => rfl
  | some d =>
      by_cases h : some d = acc.2.description
      · simp [h]
      · simp [h]

theorem applyStartTime_event (acc : List String × Event) (p : EventUpdate) :
    (applyStartTime acc p).2 =
      { acc.2 with start_time := p.start_time.getD acc.2.start_time } := by
  unfold applyStartTime
  cases ht : p.start_time with
  | none => rfl
  | some s =>
      by_cases h : s = acc.2.start_time
      · subst h; simp
      · simp [h]

theorem applyEndTime_event (acc : List String × Event) (p : EventUpdate) :
    (applyEndTime acc p).2 =
      { acc.2 with end_time := p.end_time.getD acc.2.end_time } := by
  unfold applyEndTime
  cases ht : p.end_time with
  | none => rfl
  | some e =>
      by_cases h : e = acc.2.end_time
      · subst h; simp
      · simp [h]

theorem applyLocation_event (acc : List String × Event) (p : EventUpdate) :
    (applyLocation acc p).2 =
      { acc.2 with location :=
          match p.location with
          | some l => some l
          | none => acc.2.location } := by
  unfold applyLocation
  cases ht : p.location with
  | none => rfl
  | some l =>
      by_cases h : some l = acc.2.location
      · simp [h]
      · simp [h]

theorem applyIsRecurring_event (acc : List String × Event) (p : EventUpdate) :
    (applyIsRecurring acc p).2 =
      { acc.2 with is_recurring := p.is_recurring.getD acc.2.is_recurring } := by
  unfold applyIsRecurring
  cases ht : p.is_recurring with
  | none => rfl
  | some r =>
      by_cases h : r = acc.2.is_recurring
      · subst h; simp
      · simp [h]

theorem applyRecPattern_event (acc : List String × Event) (p : EventUpdate) :
    (applyRecPattern acc p).2 =
      { acc.2 with recurrence_pattern :=
          match p.recurrence_pattern with
          | some q => some q
          | none => acc.2.recurrence_pattern } := by
  unfold applyRecPattern
  cases ht : p.recurrence_pattern with
  | none => rfl
  | some q =>
      by_cases h : some q = acc.2.recurrence_pattern
      · simp [h]
      · simp [h]

theorem applyRecRule_event (acc : List String × Event) (p : EventUpdate) :
    (applyRecRule acc p).2 =
      { acc.2 with recurrence_rule :=
          match p.recurrence_rule with
          | some r => some r
          | none => acc.2.recurrence_rule } := by
  unfold applyRecRule
  cases ht : p.recurrence_rule with
  | none => rfl
  | some r =>
      by_cases h : some r = acc.2.recurrence_rule
      · simp [h]
      · simp [h]

/-- The event row produced by update_event is the merged event with version
incremented and the update timestamp set, and exactly one snapshot of that row
is appended to the history. -/
theorem update_event_spec (st : EventState) (p : EventUpdate) (uid now : Int) :
    ∃ d : String, update_event st p uid now =
      { event := { applyPatch st.event p with
                     version := st.event.version + 1, updated_at := some now }
        versions := st.versions ++ [create_event_version
          { applyPatch st.event p with
              version := st.event.version + 1, updated_at := some now }
          uid (some d)] } := by
  refine ⟨updateDescription st p, ?_⟩
  unfold update_event updateDescription
  simp only [applyTitle_event, applyDescription_event, applyStartTime_event,
    applyEndTime_event, applyLocation_event, applyIsRecurring_event,
    applyRecPattern_event, applyRecRule_event]
  rfl

/-! Structural lemmas about the rollback field assignments on well-formed
snapshot data. -/

theorem rbTitle_data (event e0 : Event) :
    rbTitle event (eventData e0) = { event with title := e0.title } := rfl

theorem rbDescription_data (event e0 : Event) :
    rbDescription event (eventData e0) =
      { event with description := e0.description } := by
  rcases e0 with ⟨i0, t0, d0, s0, en0, l0, r0, p0, rr0, o0, c0, u0, v0⟩
  cases d0 <;> rfl

theorem rbStartTime_data (event e0 : Event) :
    rbStartTime event (eventData e0) =
      { event with start_time := e0.start_time } := rfl

theorem rbEndTime_data (event e0 : Event) :
    rbEndTime event (eventData e0) =
      { event with end_time := e0.end_time } := rfl

theorem rbLocation_data (event e0 : Event) :
    rbLocation event (eventData e0) =
      { event with location := e0.location } := by
  rcases e0 with ⟨i0, t0, d0, s0, en0, l0, r0, p0, rr0, o0, c0, u0, v0⟩
  cases l0 <;> rfl

theorem rbIsRecurring_data (event e0 : Event) :
    rbIsRecurring event (eventData e0) =
      { event with is_recurring := e0.is_recurring } := rfl

theorem rbRecPattern_data (event e0 : Event) :
    rbRecPattern event (eventData e0) =
      { event with recurrence_pattern :=
          match e0.recurrence_pattern with
          | some p => some p
          | none => event.recurrence_pattern } := by
  rcases e0 with ⟨i0, t0, d0, s0, en0, l0, r0, p0, rr0, o0, c0, u0, v0⟩
  cases p0 with
  | none => rfl
  | some p => cases p <;> rfl

theorem rbRecRule_data (event e0 : Event) :
    rbRecRule event (eventData e0) =
      { event with recurrence_rule := e0.recurrence_rule } := by
  rcases e0 with ⟨i0, t0, d0, s0, en0, l0, r0, p0, rr0, o0, c0, u0, v0⟩
  cases rr0 <;> rfl

/-- When the target version exists and its snapshot is the dict of a past
event row e0, rollback_event succeeds and produces exactly the rollbackApply
merge together with one appended snapshot carrying the rollback
description. -/
theorem rollback_event_spec (st : EventState) (version : Nat) (uid now : Int)
    (ev : EventVersion) (e0 : Event)
    (hfind : get_event_version st.versions st.event.id version = some ev)
    (hdata : ev.data = eventData e0) :
    rollback_event st version uid now = some
      { event := rollbackApply st.event e0 now
        versions := st.versions ++
          [create_event_version (rollbackApply st.event e0 now) uid
            (some ("Rolled back to version " ++ toString version))] } := by
  unfold rollback_event
  rw [hfind]
  simp only [Option.map_some', hdata, rbTitle_data, rbDescription_data,
    rbStartTime_data, rbEndTime_data, rbLocation_data, rbIsRecurring_data,
    rbRecPattern_data, rbRecRule_data]
  rfl

/-- Rollback to a missing version number reports not-found. -/
theorem rollback_event_none (st : EventState) (version : Nat) (uid now : Int)
    (hfind : get_event_version st.versions st.event.id version = none) :
    rollback_event st version uid now = none := by
  unfold rollback_event
  rw [hfind]
  rfl

/-! Frame lemmas: no rollback field assignment ever touches the owner
column, whatever the snapshot data holds. -/

theorem rbTitle_owner (event : Event) (vd : List (String × Value)) :
    (rbTitle event vd).owner_id = event.owner_id := by
  unfold rbTitle; split <;> rfl

theorem rbDescription_owner (event : Event) (vd : List (String × Value)) :
    (rbDescription event vd).owner_id = event.owner_id := by
  unfold rbDescription; split <;> rfl

theorem rbStartTime_owner (event : Event) (vd : List (String × Value)) :
    (rbStartTime event vd).owner_id = event.owner_id := by
  unfold rbStartTime; split <;> rfl

theorem rbEndTime_owner (event : Event) (vd : List (String × Value)) :
    (rbEndTime event vd).owner_id = event.owner_id := by
  unfold rbEndTime; split <;> rfl

theorem rbLocation_owner (event : Event) (vd : List (String × Value)) :
    (rbLocation event vd).owner_id = event.owner_id := by
  unfold rbLocation; split <;> rfl

theorem rbIsRecurring_owner (event : Event) (vd : List (String × Value)) :
    (rbIsRecurring event vd).owner_id = event.owner_id := by
  unfold rbIsRecurring; split <;> rfl

theorem rbRecPattern_owner (event : Event) (vd : List (String × Value)) :
    (rbRecPattern event vd).owner_id = event.owner_id := by
  unfold rbRecPattern
  split
  · split
    · split
      · split <;> rfl
      · rfl
    · rfl
  · rfl

theorem rbRecRule_owner (event : Event) (vd : List (String × Value)) :
    (rbRecRule event vd).owner_id = event.owner_id := by
  unfold rbRecRule; split <;> rfl

/-- Whatever state it runs on, a successful rollback keeps the owner
column. -/
theorem rollback_event_owner (st : EventState) (version : Nat) (uid now : Int)
    (st2 : EventState) (h : rollback_event st version uid now = some st2) :
    st2.event.owner_id = st.event.owner_id := by
  unfold rollback_event at h
  cases hfind : get_event_version st.versions st.event.id version with
  | none => rw [hfind] at h; exact absurd h (by simp)
  | some ev =>
      rw [hfind] at h
      simp only [Option.map_some', Option.some.injEq] at h
      subst h
      simp only [rbRecRule_owner, rbRecPattern_owner, rbIsRecurring_owner,
        rbLocation_owner, rbEndTime_owner, rbStartTime_owner,
        rbDescription_owner, rbTitle_owner]

/-- Appending one well-formed snapshot of the new event row to a state whose
history satisfies the invariant yields a state satisfying it again, provided
the new row kept the id and incremented the version by exactly one. -/
theorem inv_append_snapshot (st : EventState) (E : Event) (uid : Int)
    (d : Option String) (hinv : Inv st)
    (hv : E.version = st.event.version + 1) (hid : E.id = st.event.id) :
    Inv { event := E
          versions := st.versions ++ [create_event_version E uid d] } := by
  obtain ⟨hmap, hwf⟩ := hinv
  constructor
  · simp only [List.map_append, hmap, List.map_cons, List.map_nil,
      create_event_version, hv]
    rw [List.range'_1_concat]
    simp [Nat.add_comm]
  · intro ev hev
    rcases List.mem_append.mp hev with hold | hnew
    · obtain ⟨hid2, e0, hdata, hver⟩ := hwf ev hold
      exact ⟨by rw [hid2, hid], e0, hdata, hver⟩
    · have hev2 : ev = create_event_version E uid d := by
        simpa using hnew
      subst hev2
      exact ⟨rfl, E, rfl, rfl⟩

/-- Every state reachable through the service satisfies the version-history
invariant. -/
theorem reach_inv (st : EventState) (h : Reach st) : Inv st := by
  induction h with
  | create event_in owner_id eid now =>
      constructor
      · rfl
      · intro ev hev
        have hev2 : ev = create_event_version
            { id := eid
              title := event_in.title
              description := event_in.description
              start_time := event_in.start_time
              end_time := event_in.end_time
              location := event_in.location
              is_recurring := event_in.is_recurring
              recurrence_pattern := event_in.recurrence_pattern
              recurrence_rule := event_in.recurrence_rule
              owner_id := owner_id
              created_at := now
              updated_at := none
              version := 1 } owner_id (some "Initial creation") := by
          simpa [create_event] using hev
        subst hev2
        exact ⟨rfl, _, rfl, rfl⟩
  | update st p uid now hst ih =>
      obtain ⟨d, hspec⟩ := update_event_spec st p uid now
      rw [hspec]
      exact inv_append_snapshot st _ uid (some d) ih rfl rfl
  | rollback st st2 version uid now hst heq ih =>
      cases hfind : get_event_version st.versions st.event.id version with
      | none =>
          rw [rollback_event_none st version uid now hfind] at heq
          cases heq
      | some ev =>
          have hmem := List.mem_of_find?_eq_some hfind
          obtain ⟨hid2, e0, hdata, hver⟩ := ih.2 ev hmem
          have hspec := rollback_event_spec st version uid now ev e0 hfind hdata
          rw [hspec] at heq
          have hst3 : st2 = { event := rollbackApply st.event e0 now
                              versions := st.versions ++
                                [create_event_version
                                  (rollbackApply st.event e0 now) uid
                                  (some ("Rolled back to version "
                                    ++ toString version))] } := by
            exact (Option.some.inj heq).symm
          subst hst3
          exact inv_append_snapshot st _ uid _ ih rfl rfl

/-- A snapshot located by get_event_version carries the requested version
number and belongs to the history. -/
theorem get_event_version_found (versions : List EventVersion) (event_id : Int)
    (version : Nat) (ev : EventVersion)
    (h : get_event_version versions event_id version = some ev) :
    ev ∈ versions ∧ ev.event_id = event_id ∧ ev.version = version := by
  refine ⟨List.mem_of_find?_eq_some h, ?_, ?_⟩
  · have hp := List.find?_some h
    simp only [Bool.and_eq_true, beq_iff_eq] at hp
    exact hp.1
  · have hp := List.find?_some h
    simp only [Bool.and_eq_true, beq_iff_eq] at hp
    exact hp.2

/-- Membership in the field-level diff: a triple is reported exactly for a
non-metadata key present in either snapshot whose two looked-up values
differ. -/
theorem mem_dataDiff (data1 data2 : List (String × Value)) (k : String)
    (a b : Value) :
    (k, a, b) ∈ dataDiff data1 data2 ↔
      (k ∈ data1.map Prod.fst ∨ k ∈ data2.map Prod.fst) ∧
        k ∉ diffMetadataKeys ∧ a = pyGet data1 k ∧ b = pyGet data2 k ∧
        a ≠ b := by
  unfold dataDiff
  rw [List.mem_filterMap]
  constructor
  · rintro ⟨key, hkey, heq⟩
    rw [List.mem_dedup, List.mem_append] at hkey
    split_ifs at heq with hm hne
    have h3 : key = k ∧ pyGet data1 key = a ∧ pyGet data2 key = b := by
      simpa using heq
    obtain ⟨hk, ha, hb⟩ := h3
    subst hk
    refine ⟨hkey, hm, ha.symm, hb.symm, ?_⟩
    rw [ha, hb] at hne
    exact hne
  · rintro ⟨hk, hm, ha, hb, hne⟩
    refine ⟨k, ?_, ?_⟩
    · rw [List.mem_dedup, List.mem_append]
      exact hk
    · rw [if_neg hm]
      subst ha
      subst hb
      rw [if_pos hne]

/-- C1: for every reachable event state the version counter equals the number
of stored snapshots and the snapshot version numbers are exactly
1, 2, ..., version with no gaps or duplicates; creation persists the event at
version 1 writing exactly one snapshot, and every committed mutation (update,
successful rollback) increments the version by exactly 1 and writes exactly
one snapshot. -/
theorem c1_version_invariant (st : EventState) (hst : Reach st) :
    (st.versions.map (fun ev => ev.version) = List.range' 1 st.event.version ∧
      st.versions.length = st.event.version) ∧
    (∀ event_in owner_id eid now,
      (create_event event_in owner_id eid now).event.version = 1 ∧
        (create_event event_in owner_id eid now).versions.length = 1) ∧
    (∀ p uid now,
      (update_event st p uid now).event.version = st.event.version + 1 ∧
        (update_event st p uid now).versions.length = st.versions.length + 1) ∧
    (∀ version uid now st2, rollback_event st version uid now = some st2 →
      st2.event.version = st.event.version + 1 ∧
        st2.versions.length = st.versions.length + 1) := by
  have hinv := reach_inv st hst
  refine ⟨⟨hinv.1, ?_⟩, ?_, ?_, ?_⟩
  · have hlen := congrArg List.length hinv.1
    simpa using hlen
  · intro event_in owner_id eid now
    exact ⟨rfl, rfl⟩
  · intro p uid now
    obtain ⟨d, hspec⟩ := update_event_spec st p uid now
    rw [hspec]
    exact ⟨rfl, by simp⟩
  · intro version uid now st2 h
    cases hfind : get_event_version st.versions st.event.id version with
    | none =>
        rw [rollback_event_none st version uid now hfind] at h
        cases h
    | some ev =>
        obtain ⟨hmem, hid2, hver⟩ :=
          get_event_version_found st.versions st.event.id version ev hfind
        obtain ⟨_, e0, hdata, _⟩ := hinv.2 ev hmem
        have hspec := rollback_event_spec st version uid now ev e0 hfind hdata
        rw [hspec] at h
        have hst3 := (Option.some.inj h).symm
        subst hst3
        exact ⟨rfl, by simp⟩

/-- Witness for C1 at a concrete freshly created event. -/
theorem c1_version_invariant_witness :
    st1.versions.map (fun ev => ev.version) = List.range' 1 st1.event.version ∧
      st1.versions.length = st1.event.version :=
  (c1_version_invariant st1 (Reach.create sampleCreate 1 10 0)).1

/-- C2: detect_conflicts returns exactly the events visible to the user
(owner or any permission grant), excluding the optionally given event id
(always a positive database id), whose window overlaps the candidate
half-openly, so a back-to-back event whose end equals the candidate start is
never returned. -/
theorem c2_detect_conflicts (events : List Event) (perms : List EventPermission)
    (event_in : EventCreate) (user_id : Int) (event_id : Option Int)
    (hpos : ∀ i, event_id = some i → i ≠ 0) :
    (∀ e, e ∈ detect_conflicts events perms event_in user_id event_id ↔
      (e ∈ events ∧
        (e.owner_id = user_id ∨
          ∃ p ∈ perms, p.event_id = e.id ∧ p.user_id = user_id) ∧
        (∀ i, event_id = some i → e.id ≠ i) ∧
        event_in.start_time < e.end_time ∧
        event_in.end_time > e.start_time)) ∧
    (∀ e, e.end_time = event_in.start_time →
      e ∉ detect_conflicts events perms event_in user_id event_id) := by
  have hchar : ∀ e, e ∈ detect_conflicts events perms event_in user_id event_id ↔
      (e ∈ events ∧
        (e.owner_id = user_id ∨
          ∃ p ∈ perms, p.event_id = e.id ∧ p.user_id = user_id) ∧
        (∀ i, event_id = some i → e.id ≠ i) ∧
        event_in.start_time < e.end_time ∧
        event_in.end_time > e.start_time) := by
    intro e
    cases event_id with
    | none =>
        simp only [detect_conflicts, visibleTo, List.mem_filter,
          Bool.and_eq_true, decide_eq_true_eq, Bool.or_eq_true, beq_iff_eq,
          List.any_eq_true]
        constructor
        · rintro ⟨⟨he, hvis⟩, hs, ht⟩
          exact ⟨he, by tauto, by simp, hs, ht⟩
        · rintro ⟨he, hvis, _, hs, ht⟩
          exact ⟨⟨he, by tauto⟩, hs, ht⟩
    | some i =>
        have hi : i ≠ 0 := hpos i rfl
        simp only [detect_conflicts, visibleTo, hi, ne_eq,
          not_false_eq_true, if_true, List.mem_filter, Bool.and_eq_true,
          decide_eq_true_eq, Bool.or_eq_true, beq_iff_eq, List.any_eq_true]
        constructor
        · rintro ⟨⟨⟨he, hvis⟩, hexcl⟩, hs, ht⟩
          refine ⟨he, by tauto, ?_, hs, ht⟩
          intro j hj
          cases hj
          exact hexcl
        · rintro ⟨he, hvis, hexcl, hs, ht⟩
          exact ⟨⟨⟨he, by tauto⟩, hexcl i rfl⟩, hs, ht⟩
  refine ⟨hchar, ?_⟩
  intro e he hmem
  obtain ⟨_, _, _, hs, _⟩ := (hchar e).mp hmem
  rw [he] at hs
  exact lt_irrefl _ hs

/-- Witness for C2: a visible overlapping event is flagged while a
back-to-back one is not, with no excluded id. -/
theorem c2_detect_conflicts_witness :
    (st1.event ∈ detect_conflicts [st1.event] [] sampleCreate 1 none ↔
      (st1.event ∈ [st1.event] ∧
        (st1.event.owner_id = 1 ∨
          ∃ p ∈ ([] : List EventPermission),
            p.event_id = st1.event.id ∧ p.user_id = 1) ∧
        (∀ i, (none : Option Int) = some i → st1.event.id ≠ i) ∧
        sampleCreate.start_time < st1.event.end_time ∧
        sampleCreate.end_time > st1.event.start_time)) :=
  (c2_detect_conflicts [st1.event] [] sampleCreate 1 none
    (by intro i hi; cases hi)).1 st1.event

/-- C3: the resolved role is owner for the structural owner, else the role of
the permission grant when one exists, else none; any role can view; owner or
editor roles (including a grant labelled owner) can edit; delete and
permission management require the structural owner, so a share grant labelled
owner never confers them. -/
theorem c3_rbac (user_id : Int) (event : Event)
    (perms : List EventPermission) :
    (get_user_role_for_event user_id event perms =
      if event.owner_id = user_id then some UserRole.owner
      else (perms.find? (fun p => p.user_id == user_id)).map
        (fun p => p.role)) ∧
    (can_view_event user_id event perms = true ↔
      get_user_role_for_event user_id event perms ≠ none) ∧
    (can_edit_event user_id event perms = true ↔
      (get_user_role_for_event user_id event perms = some UserRole.owner ∨
        get_user_role_for_event user_id event perms = some UserRole.editor)) ∧
    (can_delete_event user_id event = true ↔ event.owner_id = user_id) ∧
    (can_manage_permissions user_id event = true ↔
      event.owner_id = user_id) := by
  refine ⟨?_, ?_, ?_, ?_, ?_⟩
  · unfold get_user_role_for_event is_event_owner
    by_cases h : event.owner_id = user_id
    · simp [h]
    · simp only [h, beq_iff_eq, if_neg h, if_false]
      cases perms.find? (fun p => p.user_id == user_id) <;> simp
  · unfold can_view_event
    rw [Option.isSome_iff_ne_none]
  · unfold can_edit_event
    cases hrole : get_user_role_for_event user_id event perms with
    | none => simp
    | some r => cases r <;> simp
  · unfold can_delete_event is_event_owner
    exact beq_iff_eq
  · unfold can_manage_permissions is_event_owner
    exact beq_iff_eq

/-- C4 counterexample: create an event whose recurrence pattern is null,
update the pattern to daily, then roll back to version 1. The target snapshot
stores a null recurrence pattern, yet the live event still reads daily after
the rollback, so rollback does not reproduce every non-identity,
non-version, non-timestamp snapshot field. -/
theorem c4_rollback_counterexample :
    (get_event_version stN2.versions stN2.event.id 1).map
        (fun ev => pyGet ev.data "recurrence_pattern") = some Value.vnull ∧
    (rollback_event stN2 1 9 30).map
        (fun st => st.event.recurrence_pattern) =
      some (some RecurrencePattern.daily) := by
  decide

/-- C4 amended: when the target version does not exist rollback reports
not-found; when it exists, rollback copies every snapshot field back onto the
live event except identity, version and timestamp fields, except the owner
column (which never changes anyway), and except that a null snapshot
recurrence pattern is skipped, keeping the live pattern; the version
increments by exactly 1 and one new snapshot with the rollback description is
appended, no intervening version being deleted or renumbered. -/
theorem c4_rollback_amended (st : EventState) (hst : Reach st) (version : Nat)
    (uid now : Int) :
    (get_event_version st.versions st.event.id version = none →
      rollback_event st version uid now = none) ∧
    (∀ st2, rollback_event st version uid now = some st2 →
      ∃ e0 : Event,
        (∃ ev, get_event_version st.versions st.event.id version = some ev ∧
          ev.data = eventData e0 ∧ e0.version = version) ∧
        st2.event.title = e0.title ∧
        st2.event.description = e0.description ∧
        st2.event.start_time = e0.start_time ∧
        st2.event.end_time = e0.end_time ∧
        st2.event.location = e0.location ∧
        st2.event.is_recurring = e0.is_recurring ∧
        st2.event.recurrence_rule = e0.recurrence_rule ∧
        st2.event.recurrence_pattern =
          (match e0.recurrence_pattern with
           | some p => some p
           | none => st.event.recurrence_pattern) ∧
        st2.event.version = st.event.version + 1 ∧
        st2.event.id = st.event.id ∧
        st2.event.owner_id = st.event.owner_id ∧
        st2.versions = st.versions ++
          [create_event_version st2.event uid
            (some ("Rolled back to version " ++ toString version))]) := by
  constructor
  · exact rollback_event_none st version uid now
  · intro st2 h
    have hinv := reach_inv st hst
    cases hfind : get_event_version st.versions st.event.id version with
    | none =>
        rw [rollback_event_none st version uid now hfind] at h
        cases h
    | some ev =>
        obtain ⟨hmem, hid2, hver⟩ :=
          get_event_version_found st.versions st.event.id version ev hfind
        obtain ⟨_, e0, hdata, hver0⟩ := hinv.2 ev hmem
        have hspec := rollback_event_spec st version uid now ev e0 hfind hdata
        rw [hspec] at h
        have hst3 := (Option.some.inj h).symm
        subst hst3
        exact ⟨e0, ⟨ev, rfl, hdata, by rw [hver0, hver]⟩, rfl, rfl, rfl,
          rfl, rfl, rfl, rfl, rfl, rfl, rfl, rfl, rfl⟩

/-- Witness for C4 amended: rolling a fresh event back to the missing
version 5 reports not-found. -/
theorem c4_rollback_amended_witness :
    rollback_event st1 5 7 3 = none :=
  (c4_rollback_amended st1 (Reach.create sampleCreate 1 10 0) 5 7 3).1
    (by decide)

/-- C5 counterexample: on an event lasting from 0 to 10, a patch carrying
only an end time of -5 merges into a state whose end precedes its start, yet
the update validator raises nothing and the service commits the new end
time. -/
theorem c5_update_validation_counterexample :
    mergedCreateViolation st1.event badEndPatch = true ∧
    eventUpdateEndTimeError badEndPatch = false ∧
    (update_event st1 badEndPatch 1 5).event.end_time = -5 := by
  decide

/-- C5 amended: updating raises the temporal ValidationError exactly when the
patch itself carries both a start and an end time with end not after start;
the merged old-plus-patch state is never validated and no
recurrence-consistency check runs on update (such a failing request is
rejected during payload validation, before the service mutates anything).
Every raised error is nonetheless sound for the merged state. -/
theorem c5_update_validation (p : EventUpdate) :
    (eventUpdateEndTimeError p = true ↔
      ∃ s e, p.start_time = some s ∧ p.end_time = some e ∧ e ≤ s) ∧
    (∀ event : Event, eventUpdateEndTimeError p = true →
      mergedCreateViolation event p = true) := by
  have hiff : eventUpdateEndTimeError p = true ↔
      ∃ s e, p.start_time = some s ∧ p.end_time = some e ∧ e ≤ s := by
    unfold eventUpdateEndTimeError
    cases hs : p.start_time with
    | none => cases he : p.end_time <;> simp
    | some s =>
        cases he : p.end_time with
        | none => simp
        | some e => simp
  refine ⟨hiff, ?_⟩
  intro event h
  obtain ⟨s, e, hs, he, hle⟩ := hiff.mp h
  unfold mergedCreateViolation eventBaseValidationError
  rw [hs, he]
  simp [hle]

/-- Witness for C5 amended: a patch carrying start 10 and end 3 raises the
validator and indeed violates the merged creation constraints. -/
theorem c5_update_validation_witness :
    mergedCreateViolation st1.event
      { emptyPatch with start_time := some 10, end_time := some 3 } = true :=
  (c5_update_validation
      { emptyPatch with start_time := some 10, end_time := some 3 }).2
    st1.event (by decide)

/-- C6: at the failing input (a fresh event, diff of version 1 with itself)
the service correctly produces the empty diff, but the endpoint, whose guard
treats the falsy empty dict like None, reports not-found even though both
requested versions exist. -/
theorem c6_empty_diff_not_found_bug :
    calculate_diff st1.versions st1.event.id 1 1 = some [] ∧
    (get_event_version st1.versions st1.event.id 1).isSome = true ∧
    get_event_diff st1.versions st1.event.id 1 1 = DiffResult.notFound := by
  decide

/-- Swapping the two snapshots swaps the direction-labelled values of every
reported field. -/
theorem dataDiff_swap (data1 data2 : List (String × Value)) (k : String)
    (a b : Value) (h : (k, a, b) ∈ dataDiff data1 data2) :
    (k, b, a) ∈ dataDiff data2 data1 := by
  rw [mem_dataDiff] at h ⊢
  obtain ⟨hk, hm, ha, hb, hne⟩ := h
  exact ⟨hk.symm, hm, hb, ha, hne.symm⟩

/-- C7: for two existing versions, every key reported by the diff in one
direction is reported in the other direction, with the two direction-labelled
values swapped. -/
theorem c7_diff_symmetry (versions : List EventVersion) (event_id : Int)
    (v1 v2 : Nat) (d12 d21 : List (String × Value × Value))
    (h12 : calculate_diff versions event_id v1 v2 = some d12)
    (h21 : calculate_diff versions event_id v2 v1 = some d21) :
    (∀ k, (∃ a b, (k, a, b) ∈ d12) → ∃ a b, (k, a, b) ∈ d21) ∧
    (∀ k a b, (k, a, b) ∈ d12 → (k, b, a) ∈ d21) := by
  unfold calculate_diff at h12 h21
  cases hA : get_event_version versions event_id v1 with
  | none =>
      rw [hA] at h12
      cases hB : get_event_version versions event_id v2 with
      | none => rw [hB] at h12; simp at h12
      | some ev2 => rw [hB] at h12; simp at h12
  | some ev1 =>
      rw [hA] at h12 h21
      cases hB : get_event_version versions event_id v2 with
      | none => rw [hB] at h12; simp at h12
      | some ev2 =>
          rw [hB] at h12 h21
          simp only [Option.some.injEq] at h12 h21
          subst h12
          subst h21
          constructor
          · rintro k ⟨a, b, hab⟩
            exact ⟨b, a, dataDiff_swap ev1.data ev2.data k a b hab⟩
          · intro k a b hab
            exact dataDiff_swap ev1.data ev2.data k a b hab

/-- Witness for C7 on the fresh event and its title update: in the reverse
diff the title entry appears with the values swapped. -/
theorem c7_diff_symmetry_witness :
    ("title", Value.vstr "Sync", Value.vstr "Standup") ∈
      [("title", Value.vstr "Sync", Value.vstr "Standup"),
       ("version", Value.vint 2, Value.vint 1)] :=
  (c7_diff_symmetry st2.versions st2.event.id 1 2
      [("title", Value.vstr "Standup", Value.vstr "Sync"),
       ("version", Value.vint 1, Value.vint 2)]
      [("title", Value.vstr "Sync", Value.vstr "Standup"),
       ("version", Value.vint 2, Value.vint 1)]
      (by decide) (by decide)).2
    "title" (Value.vstr "Standup") (Value.vstr "Sync") (by decide)

/-- C8: neither update nor rollback ever changes the owner column, creation
sets it to the creating user, and it survives any sequence of updates and
rollbacks. -/
theorem c8_owner_frame :
    (∀ st p uid now,
      (update_event st p uid now).event.owner_id = st.event.owner_id) ∧
    (∀ st version uid now,
      ((rollback_event st version uid now).map
          (fun s => s.event.owner_id)).getD st.event.owner_id =
        st.event.owner_id) ∧
    (∀ event_in owner_id eid now,
      (create_event event_in owner_id eid now).event.owner_id = owner_id) ∧
    (∀ event_in owner_id eid now ops,
      (applyOps (create_event event_in owner_id eid now) ops).event.owner_id =
        owner_id) := by
  have hupd : ∀ st p uid now,
      (update_event st p uid now).event.owner_id = st.event.owner_id := by
    intro st p uid now
    obtain ⟨d, hspec⟩ := update_event_spec st p uid now
    rw [hspec]
    rfl
  have hgen : ∀ ops st, (applyOps st ops).event.owner_id = st.event.owner_id := by
    intro ops
    induction ops with
    | nil => intro st; rfl
    | cons op rest ih =>
        intro st
        show (applyOps (applyOp st op) rest).event.owner_id = _
        rw [ih]
        cases op with
        | upd p uid2 now2 => exact hupd st p uid2 now2
        | rb v uid2 now2 =>
            show (match rollback_event st v uid2 now2 with
                  | some s => s
                  | none => st).event.owner_id = _
            cases h : rollback_event st v uid2 now2 with
            | none => rfl
            | some s2 => exact rollback_event_owner st v uid2 now2 s2 h
  refine ⟨hupd, ?_, ?_, ?_⟩
  · intro st version uid now
    cases h : rollback_event st version uid now with
    | none => rfl
    | some st2 => simpa using rollback_event_owner st version uid now st2 h
  · intro event_in owner_id eid now
    rfl
  · intro event_in owner_id eid now ops
    rw [hgen]
    rfl

/-- C9: a patch field carrying none (pydantic cannot tell an explicit null
from an omitted field) is never assigned, so an optional field of the updated
event is null exactly when the patch omitted it and it was already null. -/
theorem c9_no_null_reset (st : EventState) (p : EventUpdate) (uid now : Int) :
    ((update_event st p uid now).event.description = none ↔
      (p.description = none ∧ st.event.description = none)) ∧
    ((update_event st p uid now).event.location = none ↔
      (p.location = none ∧ st.event.location = none)) ∧
    ((update_event st p uid now).event.recurrence_rule = none ↔
      (p.recurrence_rule = none ∧ st.event.recurrence_rule = none)) := by
  obtain ⟨d, hspec⟩ := update_event_spec st p uid now
  rw [hspec]
  simp only [applyPatch]
  refine ⟨?_, ?_, ?_⟩
  · cases hd : p.description <;> simp
  · cases hl : p.location <;> simp
  · cases hr : p.recurrence_rule <;> simp

/-- C10: each snapshot records its own version number under the version key,
which calculate_diff does not exclude, so the diff of two distinct existing
versions of a reachable event always contains the version entry and is never
empty. -/
theorem c10_diff_version_key (st : EventState) (hst : Reach st)
    (v1 v2 : Nat) (hne : v1 ≠ v2) (ev1 ev2 : EventVersion)
    (h1 : get_event_version st.versions st.event.id v1 = some ev1)
    (h2 : get_event_version st.versions st.event.id v2 = some ev2) :
    ∃ d, calculate_diff st.versions st.event.id v1 v2 = some d ∧
      ("version", Value.vint (v1 : Int), Value.vint (v2 : Int)) ∈ d ∧
      d ≠ [] := by
  have hinv := reach_inv st hst
  obtain ⟨hmem1, _, hver1⟩ :=
    get_event_version_found st.versions st.event.id v1 ev1 h1
  obtain ⟨hmem2, _, hver2⟩ :=
    get_event_version_found st.versions st.event.id v2 ev2 h2
  obtain ⟨_, e1, hdata1, hv1⟩ := hinv.2 ev1 hmem1
  obtain ⟨_, e2, hdata2, hv2⟩ := hinv.2 ev2 hmem2
  have hkey : ("version", Value.vint (v1 : Int), Value.vint (v2 : Int)) ∈
      dataDiff ev1.data ev2.data := by
    rw [mem_dataDiff]
    refine ⟨?_, ?_, ?_, ?_, ?_⟩
    · left
      rw [hdata1]
      simp [eventData]
    · decide
    · rw [hdata1]
      have he1 : e1.version = v1 := by rw [hv1, hver1]
      rw [← he1]
      rfl
    · rw [hdata2]
      have he2 : e2.version = v2 := by rw [hv2, hver2]
      rw [← he2]
      rfl
    · intro hcon
      apply hne
      have hint : (v1 : Int) = (v2 : Int) := by
        injection hcon
      exact_mod_cast hint
  refine ⟨dataDiff ev1.data ev2.data, ?_, hkey, List.ne_nil_of_mem hkey⟩
  unfold calculate_diff
  rw [h1, h2]

/-- Witness for C10 on the fresh event and its title update: the diff of
versions 1 and 2 contains the version entry. -/
theorem c10_diff_version_key_witness :
    ∃ d, calculate_diff st2.versions st2.event.id 1 2 = some d ∧
      ("version", Value.vint ((1 : Nat) : Int),
        Value.vint ((2 : Nat) : Int)) ∈ d ∧ d ≠ [] :=
  c10_diff_version_key st2
    (Reach.update st1 titlePatch 1 5 (Reach.create sampleCreate 1 10 0))
    1 2 (by decide)
    (create_event_version st1.event 1 (some "Initial creation"))
    (create_event_version st2.event 1 (some (updateDescription st1 titlePatch)))
    (by decide) (by decide)

end EventMgmt
